import Mathlib

/-!
Verification development for the note-site publish pipeline.

Embedded programs:
* `scripts/auto-sync-deploy.sh` — the pipeline orchestrator
  (sync → build → diff → commit → push, `set -euo pipefail`), modelled by
  `autoSyncDeploy` over an environment `SyncEnv` recording the exit status
  of each external command the script invokes.
* `scripts/run-bear-export.sh` — the exporter adapter and asset relay
  (mkdir -p, exporter-script existence check, python3 invocation,
  conditional rsync of BearImages), modelled by `runBearExport` over an
  abstract filesystem `FS`.
* the Bear callback capture listener (Node `http.createServer` handler:
  buffer chunks, derive a record filename from
  `new Date().toISOString().replace(/[:.]/g, '-')` plus the HTTP method,
  `writeFileSync`, then respond 200 `ok`), modelled by `handleRequest` and
  `processRequests`.

Machine-level conventions: decimal formatting of zero-padded date fields is
embedded by `digitChar`/`pad2`/`pad3`/`pad4`; strings are Lean `String`s and
all filename reasoning happens on their character lists.
-/

/-- A digit character, as produced by decimal formatting of a single digit
(arguments are always reduced mod 10 by the callers). -/
def digitChar (d : Nat) : Char :=
  if d = 0 then '0' else if d = 1 then '1' else if d = 2 then '2'
  else if d = 3 then '3' else if d = 4 then '4' else if d = 5 then '5'
  else if d = 6 then '6' else if d = 7 then '7' else if d = 8 then '8' else '9'

/-- Two-digit zero-padded decimal rendering (`%02d`), as used by
`date +"%m"` etc. and by `Date.toISOString` fields, for values below 100. -/
def pad2 (n : Nat) : String :=
  String.mk [digitChar (n / 10), digitChar (n % 10)]

/-- Three-digit zero-padded decimal rendering, for the millisecond field of
`Date.toISOString`. -/
def pad3 (n : Nat) : String :=
  String.mk [digitChar (n / 100), digitChar (n / 10 % 10), digitChar (n % 10)]

/-- Four-digit zero-padded decimal rendering, for the year field. -/
def pad4 (n : Nat) : String :=
  String.mk [digitChar (n / 1000), digitChar (n / 100 % 10),
    digitChar (n / 10 % 10), digitChar (n % 10)]

/-- A wall-clock instant, as observed by `$(date ...)` in the shell scripts
and by `new Date()` in the listener. -/
structure Timestamp where
  year : Nat
  month : Nat
  day : Nat
  hour : Nat
  minute : Nat
  second : Nat
  ms : Nat
deriving DecidableEq

/-- Field bounds under which the decimal renderings are faithful: every
timestamp produced by a real clock satisfies them. -/
def Timestamp.Valid (t : Timestamp) : Prop :=
  t.year < 10000 ∧ t.month < 100 ∧ t.day < 100 ∧ t.hour < 100 ∧
    t.minute < 100 ∧ t.second < 100 ∧ t.ms < 1000

instance (t : Timestamp) : Decidable t.Valid := by
  unfold Timestamp.Valid; infer_instance

/-- The output of `date +"%Y-%m-%d %H:%M:%S"` in `auto-sync-deploy.sh`. -/
def fmtDate (t : Timestamp) : String :=
  pad4 t.year ++ "-" ++ pad2 t.month ++ "-" ++ pad2 t.day ++ " " ++
    pad2 t.hour ++ ":" ++ pad2 t.minute ++ ":" ++ pad2 t.second

/-- The commit message built by `auto-sync-deploy.sh`:
`COMMIT_MSG="Auto update notes $(date +"%Y-%m-%d %H:%M:%S")"`. -/
def commitMsg (t : Timestamp) : String :=
  "Auto update notes " ++ fmtDate t

/-- The log line tag of `auto-sync-deploy.sh` (`LOG_PREFIX="[auto-sync]"`). -/
def logTag : String := "[auto-sync]"

/-- One external command invocation performed by the orchestrator, in the
order they appear in the script. -/
inductive Invocation where
  | syncBear
  | buildSite
  | diffDocs
  | gitAdd
  | gitCommit (msg : String)
  | gitPush
deriving DecidableEq

/-- A console line emitted by the orchestrator, tagged with the stream it
goes to (`err` lines are those redirected with `>&2`). -/
inductive LogLine where
  | out (s : String)
  | err (s : String)
deriving DecidableEq

/-- The outcomes of the external commands the orchestrator shells out to:
`npm run sync-bear`, `npm run build`, `git diff --quiet -- docs`,
`git add docs` (recorded as its exit code, since it is unguarded under
`set -e`), `git commit`, `git push`. -/
structure SyncEnv where
  syncOk : Bool
  buildOk : Bool
  diffQuiet : Bool
  gitAddExit : Nat
  commitOk : Bool
  pushOk : Bool
deriving DecidableEq

/-- The observable result of one orchestrator run: process exit code, the
external commands invoked in order, and the console log (the locale-format
start banner `Starting at $(date)` is not modelled). -/
structure RunResult where
  exitCode : Nat
  invoked : List Invocation
  log : List LogLine
deriving DecidableEq

/-- Shallow embedding of `scripts/auto-sync-deploy.sh` under
`set -euo pipefail`: each `if cmd; then ... else ... exit 1; fi` branch is
followed literally; `git add docs` is a plain unguarded command, so under
`set -e` its failure terminates the script with its own exit code. -/
def autoSyncDeploy (env : SyncEnv) (now : Timestamp) : RunResult :=
  if !env.syncOk then
    { exitCode := 1
      invoked := [.syncBear]
      log := [.err (logTag ++ " sync-bear FAILED")] }
  else
    let log1 : List LogLine := [.out (logTag ++ " sync-bear ok")]
    if !env.buildOk then
      { exitCode := 1
        invoked := [.syncBear, .buildSite]
        log := log1 ++ [.err (logTag ++ " build FAILED")] }
    else
      let log2 := log1 ++ [LogLine.out (logTag ++ " build ok")]
      if env.diffQuiet then
        { exitCode := 0
          invoked := [.syncBear, .buildSite, .diffDocs]
          log := log2 ++ [.out (logTag ++ " no changes in docs, nothing to commit")] }
      else
        let msg := commitMsg now
        let log3 := log2 ++ [LogLine.out (logTag ++ " committing: " ++ msg)]
        if env.gitAddExit ≠ 0 then
          { exitCode := env.gitAddExit
            invoked := [.syncBear, .buildSite, .diffDocs, .gitAdd]
            log := log3 }
        else if !env.commitOk then
          { exitCode := 1
            invoked := [.syncBear, .buildSite, .diffDocs, .gitAdd, .gitCommit msg]
            log := log3 ++ [.err (logTag ++ " git commit failed")] }
        else
          let log4 := log3 ++ [LogLine.out (logTag ++ " commit ok")]
          if !env.pushOk then
            { exitCode := 1
              invoked := [.syncBear, .buildSite, .diffDocs, .gitAdd, .gitCommit msg, .gitPush]
              log := log4 ++ [.err (logTag ++ " git push failed")] }
          else
            { exitCode := 0
              invoked := [.syncBear, .buildSite, .diffDocs, .gitAdd, .gitCommit msg, .gitPush]
              log := log4 ++ [.out (logTag ++ " push ok"), .out (logTag ++ " done")] }

/-- Repository-level state for the idempotence argument: the current note
content and the docs content tracked by the repository (`none` before any
commit). -/
structure PipeWorld where
  notes : String
  tracked : Option String

/-- The command environment induced by a world in which the exporter, the
builder, git commit and git push all function: `git diff --quiet -- docs`
reports quiet exactly when the tracked docs already equal the builder's
output for the current notes. -/
def pipeEnv (build : String → String) (w : PipeWorld) : SyncEnv :=
  { syncOk := true
    buildOk := true
    diffQuiet := w.tracked == some (build w.notes)
    gitAddExit := 0
    commitOk := true
    pushOk := true }

/-- Whether an invocation is a `git commit`. -/
def isCommitInv : Invocation → Bool
  | .gitCommit _ => true
  | _ => false

/-- The repository state after one orchestrator run: if the run performed a
`git commit`, the tracked docs become the builder's output for the current
notes; otherwise the repository is unchanged. -/
def pipeWorldAfter (build : String → String) (w : PipeWorld) (t : Timestamp) :
    PipeWorld :=
  if ((autoSyncDeploy (pipeEnv build w) t).invoked.any isCommitInv) then
    { w with tracked := some (build w.notes) }
  else w

/-- Boolean test that `pre` is an initial segment of `l` (character-list
analogue of shell path matching; used to model paths lying under a
directory). -/
def isPre : List Char → List Char → Bool
  | [], _ => true
  | _ :: _, [] => false
  | a :: as, b :: bs => a == b && isPre as bs

/-- Boolean substring test on character lists. -/
def containsSub : List Char → List Char → Bool
  | [], needle => needle.isEmpty
  | h :: t, needle => isPre needle (h :: t) || containsSub t needle

/-- Whether `sub` occurs as a contiguous substring of `s`. -/
def strContains (s sub : String) : Bool :=
  containsSub s.data sub.data

/-- An abstract filesystem: which directories exist and, for each path, the
byte content of the file stored there (if any).  Paths are strings relative
to the project root `$ROOT_DIR`. -/
structure FS where
  dirs : String → Bool
  files : String → Option (List Nat)

/-- The effect of `mkdir -p p`: the directory exists afterwards; nothing
else changes. -/
def FS.mkdirp (fs : FS) (p : String) : FS :=
  { fs with dirs := fun q => if q == p then true else fs.dirs q }

/-- The path of `p` relative to directory `dir`, when `p` lies under
`dir/`. -/
def pathRel (dir p : String) : Option String :=
  if isPre (dir ++ "/").data p.data then
    some (String.mk (p.data.drop (dir ++ "/").data.length))
  else none

/-- The effect of `rsync -r src/ dst/`: a one-way additive mirror — every
path under `dst/` afterwards holds the bytes of the corresponding source
file when one exists, and its previous content otherwise; paths outside
`dst/` are untouched and nothing is deleted. -/
def rsyncDir (fs : FS) (src dst : String) : FS :=
  { fs with files := fun p =>
      match pathRel dst p with
      | some rel =>
        match fs.files (src ++ "/" ++ rel) with
        | some b => some b
        | none => fs.files p
      | none => fs.files p }

/-- The content output directory of `run-bear-export.sh`
(`OUT_DIR="$ROOT_DIR/src/content/notes"`). -/
def outDir : String := "src/content/notes"

/-- The backup directory (`BACKUP_DIR="$ROOT_DIR/bear-sync-backup"`). -/
def backupDir : String := "bear-sync-backup"

/-- The public-asset directory (`PUBLIC_DIR="$ROOT_DIR/public"`). -/
def publicDir : String := "public"

/-- The image subfolder the exporter writes (`$OUT_DIR/BearImages`). -/
def bearSrc : String := outDir ++ "/BearImages"

/-- The relay destination (`$PUBLIC_DIR/BearImages`). -/
def bearDst : String := publicDir ++ "/BearImages"

/-- The outcomes of the external steps of `run-bear-export.sh`: whether
`bear_export_sync.py` exists at its expected location, the exit code of the
`python3` invocation, and the (opaque) filesystem effect of that
invocation. -/
structure ExportEnv where
  exportScriptExists : Bool
  pythonExit : Nat
  exporterEffect : FS → FS

/-- The observable result of one `run-bear-export.sh` run. -/
structure ExportResult where
  exitCode : Nat
  fs : FS

/-- Shallow embedding of `scripts/run-bear-export.sh` under
`set -euo pipefail`: `mkdir -p` of the three directories, the
`[ ! -f "$EXPORT_SCRIPT" ]` check exiting 1, the unguarded `python3`
invocation (whose failure terminates the script with python's own exit
code under `set -e`), and the conditional BearImages relay
(`mkdir -p` of the destination followed by `rsync -r`). -/
def runBearExport (env : ExportEnv) (fs0 : FS) : ExportResult :=
  let fs1 := ((fs0.mkdirp outDir).mkdirp backupDir).mkdirp publicDir
  if !env.exportScriptExists then
    { exitCode := 1, fs := fs1 }
  else
    let fs2 := env.exporterEffect fs1
    if env.pythonExit ≠ 0 then
      { exitCode := env.pythonExit, fs := fs2 }
    else if fs2.dirs bearSrc then
      let fs3 := fs2.mkdirp bearDst
      { exitCode := 0, fs := rsyncDir fs3 bearSrc bearDst }
    else
      { exitCode := 0, fs := fs2 }

/-- The output of `Date.prototype.toISOString` for an instant, e.g.
`2026-10-11T12:34:56.789Z`. -/
def toISOString (t : Timestamp) : String :=
  pad4 t.year ++ "-" ++ pad2 t.month ++ "-" ++ pad2 t.day ++ "T" ++
    pad2 t.hour ++ ":" ++ pad2 t.minute ++ ":" ++ pad2 t.second ++ "." ++
    pad3 t.ms ++ "Z"

/-- The character substitution of the listener's
`.replace(/[:.]/g, '-')`. -/
def replChar (c : Char) : Char :=
  if c == ':' || c == '.' then '-' else c

/-- The string-level effect of `.replace(/[:.]/g, '-')`: every colon and
dot becomes a hyphen. -/
def replaceColonsDots (s : String) : String :=
  String.mk (s.data.map replChar)

/-- The record filename derived by the listener:
`` `${ts}-${method}.log` `` with
`ts = new Date().toISOString().replace(/[:.]/g, '-')`. -/
def recordFileName (t : Timestamp) (method : String) : String :=
  replaceColonsDots (toISOString t) ++ "-" ++ method ++ ".log"

/-- The listener's debug directory (`bear-callback-debug` under the project
root). -/
def debugDir : String := "bear-callback-debug"

/-- One inbound HTTP request as the listener sees it: method, url, headers,
and the raw body chunks delivered by the `data` events. -/
structure CapturedRequest where
  method : String
  url : String
  headers : List (String × String)
  chunks : List String
deriving DecidableEq

/-- The fully buffered UTF-8 body: `Buffer.concat(chunks).toString('utf8')`. -/
def bufferedBody (r : CapturedRequest) : String :=
  String.join r.chunks

/-- The structured content of the JSON document the listener serializes —
`JSON.stringify({ method, url, headers, body }, null, 2)` — with exactly
these four fields. -/
structure RecordPayload where
  method : String
  url : String
  headers : List (String × String)
  body : String
deriving DecidableEq

/-- The record the listener persists for a request. -/
def serializeRecord (r : CapturedRequest) : RecordPayload :=
  { method := r.method
    url := r.url
    headers := r.headers
    body := bufferedBody r }

/-- One observable action of the listener's request handler, in program
order. -/
inductive ListenerEvent where
  | writeRecord (file : String) (payload : RecordPayload)
  | logSaved (file : String)
  | respond (status : Nat) (contentType : String) (body : String)
deriving DecidableEq

/-- The outcome of handling one request: the actions performed, and whether
an exception escaped the `end` handler uncaught. -/
structure HandleResult where
  events : List ListenerEvent
  uncaught : Bool
deriving DecidableEq

/-- Shallow embedding of the listener's `end` handler: buffer the body,
derive the filename from the current instant and the method, then
`writeFileSync`, `console.log`, and the `200 text/plain ok` response, in
that order.  `writeOk` records whether the unguarded `writeFileSync`
succeeds; when it throws, no later statement of the handler runs and the
exception escapes uncaught. -/
def handleRequest (t : Timestamp) (r : CapturedRequest) (writeOk : Bool) :
    HandleResult :=
  let body := String.join r.chunks
  let file := debugDir ++ "/" ++ recordFileName t r.method
  let payload : RecordPayload :=
    { method := r.method, url := r.url, headers := r.headers, body := body }
  if writeOk then
    { events := [.writeRecord file payload, .logSaved file,
        .respond 200 "text/plain" "ok"]
      uncaught := false }
  else
    { events := [], uncaught := true }

/-- The effect of `writeFileSync` on the debug directory, seen as a map
from filenames to payloads: overwrite the entry when the name exists,
append a new entry otherwise. -/
def storeWrite (s : List (String × RecordPayload)) (name : String)
    (v : RecordPayload) : List (String × RecordPayload) :=
  if s.any (fun kv => kv.1 == name) then
    s.map (fun kv => if kv.1 == name then (name, v) else kv)
  else s ++ [(name, v)]

/-- The listener serving a sequence of requests (each paired with the
instant at which its `end` handler fires), all record writes succeeding:
returns the final debug-directory contents and the `(status, body)`
responses, in request order. -/
def processRequests :
    List (Timestamp × CapturedRequest) → List (String × RecordPayload) →
      List (String × RecordPayload) × List (Nat × String)
  | [], store => (store, [])
  | (t, r) :: rest, store =>
    let store1 := storeWrite store (recordFileName t r.method) (serializeRecord r)
    let (s2, resps) := processRequests rest store1
    (s2, (200, "ok") :: resps)

@[simp] theorem sdataAppend (a b : String) : (a ++ b).data = a.data ++ b.data := rfl

@[simp] theorem smkData (s : String) : String.mk s.data = s := rfl

theorem isPre_append (l m : List Char) : isPre l (l ++ m) = true := by
  induction l with
  | nil => rfl
  | cons a as ih => simp [isPre, ih]

theorem noopRunAux (env : SyncEnv) (t : Timestamp) (h1 : env.syncOk = true)
    (h2 : env.buildOk = true) (h3 : env.diffQuiet = true) :
    (autoSyncDeploy env t).exitCode = 0 ∧
    (∀ m, Invocation.gitCommit m ∉ (autoSyncDeploy env t).invoked) ∧
    Invocation.gitPush ∉ (autoSyncDeploy env t).invoked ∧
    LogLine.out (logTag ++ " no changes in docs, nothing to commit") ∈
      (autoSyncDeploy env t).log := by
  simp [autoSyncDeploy, h1, h2, h3]

theorem pipeWorldAfter_tracked (build : String → String) (w : PipeWorld)
    (t : Timestamp) :
    (pipeWorldAfter build w t).tracked =
      some (build (pipeWorldAfter build w t).notes) := by
  unfold pipeWorldAfter
  by_cases hd : (w.tracked == some (build w.notes)) = true
  · simp [autoSyncDeploy, pipeEnv, hd, isCommitInv]
    exact eq_of_beq hd
  · have hd' : (w.tracked == some (build w.notes)) = false :=
      Bool.not_eq_true _ ▸ eq_false_of_ne_true hd
    simp [autoSyncDeploy, pipeEnv, hd', isCommitInv]

/-- C1: when the diff stage detects no changes under `docs`, the
orchestrator logs the no-op line, exits 0, and never invokes commit or
push; moreover, after any run in a world where all external commands
function, a second run with unchanged notes takes exactly this no-op path
(exit 0, no commit, no push). -/
theorem c1_noop_and_idempotence :
    (∀ (env : SyncEnv) (t : Timestamp), env.syncOk = true → env.buildOk = true →
      env.diffQuiet = true →
        (autoSyncDeploy env t).exitCode = 0 ∧
        (∀ m, Invocation.gitCommit m ∉ (autoSyncDeploy env t).invoked) ∧
        Invocation.gitPush ∉ (autoSyncDeploy env t).invoked ∧
        LogLine.out (logTag ++ " no changes in docs, nothing to commit") ∈
          (autoSyncDeploy env t).log) ∧
    (∀ (build : String → String) (w : PipeWorld) (t1 t2 : Timestamp),
        (autoSyncDeploy (pipeEnv build (pipeWorldAfter build w t1)) t2).exitCode = 0 ∧
        (∀ m, Invocation.gitCommit m ∉
          (autoSyncDeploy (pipeEnv build (pipeWorldAfter build w t1)) t2).invoked) ∧
        Invocation.gitPush ∉
          (autoSyncDeploy (pipeEnv build (pipeWorldAfter build w t1)) t2).invoked ∧
        LogLine.out (logTag ++ " no changes in docs, nothing to commit") ∈
          (autoSyncDeploy (pipeEnv build (pipeWorldAfter build w t1)) t2).log) := by
  constructor
  · exact fun env t h1 h2 h3 => noopRunAux env t h1 h2 h3
  · intro build w t1 t2
    apply noopRunAux _ _ rfl rfl
    show ((pipeWorldAfter build w t1).tracked ==
      some (build (pipeWorldAfter build w t1).notes)) = true
    rw [pipeWorldAfter_tracked]
    exact beq_self_eq_true _

/-- Witness for C1 at a concrete quiet-diff environment. -/
theorem c1_witness :
    (autoSyncDeploy ⟨true, true, true, 0, true, true⟩ ⟨2026, 10, 11, 1, 2, 3, 4⟩).exitCode = 0 ∧
    Invocation.gitPush ∉
      (autoSyncDeploy ⟨true, true, true, 0, true, true⟩ ⟨2026, 10, 11, 1, 2, 3, 4⟩).invoked ∧
    LogLine.out (logTag ++ " no changes in docs, nothing to commit") ∈
      (autoSyncDeploy ⟨true, true, true, 0, true, true⟩ ⟨2026, 10, 11, 1, 2, 3, 4⟩).log :=
  ⟨(c1_noop_and_idempotence.1 ⟨true, true, true, 0, true, true⟩
      ⟨2026, 10, 11, 1, 2, 3, 4⟩ rfl rfl rfl).1,
   (c1_noop_and_idempotence.1 ⟨true, true, true, 0, true, true⟩
      ⟨2026, 10, 11, 1, 2, 3, 4⟩ rfl rfl rfl).2.2.1,
   (c1_noop_and_idempotence.1 ⟨true, true, true, 0, true, true⟩
      ⟨2026, 10, 11, 1, 2, 3, 4⟩ rfl rfl rfl).2.2.2⟩

/-- C2 counterexample: on a sync failure the only log line, written to the
error stream, is `[auto-sync] sync-bear FAILED`; it does not contain the
substring `sync FAILED` that the claim asserts is logged (while it does
contain `sync-bear FAILED`). -/
theorem c2_counterexample :
    (autoSyncDeploy ⟨false, true, true, 0, true, true⟩ ⟨2026, 10, 11, 0, 0, 0, 0⟩).log =
      [LogLine.err "[auto-sync] sync-bear FAILED"] ∧
    strContains "[auto-sync] sync-bear FAILED" "sync FAILED" = false ∧
    strContains "[auto-sync] sync-bear FAILED" "sync-bear FAILED" = true := by
  decide

/-- C2 (amended): when sync fails, build/diff/commit/push are never
invoked, the sole log line goes to the error stream and contains
`sync-bear FAILED` (not `sync FAILED` as the spec words it), and the exit
code is 1; when build fails after a successful sync, commit and push are
never invoked, `build FAILED` is logged to the error stream, and the exit
code is 1. -/
theorem c2_fail_fast :
    (∀ (env : SyncEnv) (t : Timestamp), env.syncOk = false →
      (autoSyncDeploy env t).exitCode = 1 ∧
      (autoSyncDeploy env t).invoked = [Invocation.syncBear] ∧
      (autoSyncDeploy env t).log = [LogLine.err (logTag ++ " sync-bear FAILED")] ∧
      strContains (logTag ++ " sync-bear FAILED") "sync-bear FAILED" = true) ∧
    (∀ (env : SyncEnv) (t : Timestamp), env.syncOk = true → env.buildOk = false →
      (autoSyncDeploy env t).exitCode = 1 ∧
      (autoSyncDeploy env t).invoked = [Invocation.syncBear, Invocation.buildSite] ∧
      (autoSyncDeploy env t).log =
        [LogLine.out (logTag ++ " sync-bear ok"), LogLine.err (logTag ++ " build FAILED")] ∧
      strContains (logTag ++ " build FAILED") "build FAILED" = true) := by
  constructor
  · intro env t h1
    refine ⟨?_, ?_, ?_, ?_⟩ <;> first
      | (simp [autoSyncDeploy, h1])
      | decide
  · intro env t h1 h2
    refine ⟨?_, ?_, ?_, ?_⟩ <;> first
      | (simp [autoSyncDeploy, h1, h2])
      | decide

/-- Witness for C2 at concrete failing environments. -/
theorem c2_witness :
    ((autoSyncDeploy ⟨false, true, true, 0, true, true⟩ ⟨2026, 1, 2, 3, 4, 5, 6⟩).exitCode = 1 ∧
      (autoSyncDeploy ⟨false, true, true, 0, true, true⟩ ⟨2026, 1, 2, 3, 4, 5, 6⟩).invoked =
        [Invocation.syncBear] ∧
      (autoSyncDeploy ⟨false, true, true, 0, true, true⟩ ⟨2026, 1, 2, 3, 4, 5, 6⟩).log =
        [LogLine.err (logTag ++ " sync-bear FAILED")] ∧
      strContains (logTag ++ " sync-bear FAILED") "sync-bear FAILED" = true) ∧
    ((autoSyncDeploy ⟨true, false, true, 0, true, true⟩ ⟨2026, 1, 2, 3, 4, 5, 6⟩).exitCode = 1 ∧
      (autoSyncDeploy ⟨true, false, true, 0, true, true⟩ ⟨2026, 1, 2, 3, 4, 5, 6⟩).invoked =
        [Invocation.syncBear, Invocation.buildSite] ∧
      (autoSyncDeploy ⟨true, false, true, 0, true, true⟩ ⟨2026, 1, 2, 3, 4, 5, 6⟩).log =
        [LogLine.out (logTag ++ " sync-bear ok"), LogLine.err (logTag ++ " build FAILED")] ∧
      strContains (logTag ++ " build FAILED") "build FAILED" = true) :=
  ⟨c2_fail_fast.1 ⟨false, true, true, 0, true, true⟩ ⟨2026, 1, 2, 3, 4, 5, 6⟩ rfl,
   c2_fail_fast.2 ⟨true, false, true, 0, true, true⟩ ⟨2026, 1, 2, 3, 4, 5, 6⟩ rfl rfl⟩

/-- Whether a character is a decimal digit. -/
def isDigitCh (c : Char) : Bool :=
  decide (48 ≤ c.toNat ∧ c.toNat ≤ 57)

/-- Whether nineteen characters have the shape `YYYY-MM-DD HH:MM:SS`. -/
def matchesStamp : List Char → Bool
  | [y1, y2, y3, y4, s1, o1, o2, s2, d1, d2, s3, h1, h2, s4, i1, i2, s5, e1, e2] =>
    isDigitCh y1 && isDigitCh y2 && isDigitCh y3 && isDigitCh y4 && s1 == '-' &&
    isDigitCh o1 && isDigitCh o2 && s2 == '-' && isDigitCh d1 && isDigitCh d2 &&
    s3 == ' ' && isDigitCh h1 && isDigitCh h2 && s4 == ':' && isDigitCh i1 &&
    isDigitCh i2 && s5 == ':' && isDigitCh e1 && isDigitCh e2
  | _ => false

/-- Whether a string matches the spec's commit-message pattern
`Auto update notes YYYY-MM-DD HH:MM:SS`. -/
def matchesCommitPattern (s : String) : Bool :=
  isPre "Auto update notes ".data s.data && matchesStamp (s.data.drop 18)

@[simp] theorem isDigitCh_digitChar (d : Nat) : isDigitCh (digitChar d) = true := by
  unfold digitChar
  split_ifs <;> decide

theorem fmtDate_data (t : Timestamp) : (fmtDate t).data =
    [digitChar (t.year / 1000), digitChar (t.year / 100 % 10),
     digitChar (t.year / 10 % 10), digitChar (t.year % 10), '-',
     digitChar (t.month / 10), digitChar (t.month % 10), '-',
     digitChar (t.day / 10), digitChar (t.day % 10), ' ',
     digitChar (t.hour / 10), digitChar (t.hour % 10), ':',
     digitChar (t.minute / 10), digitChar (t.minute % 10), ':',
     digitChar (t.second / 10), digitChar (t.second % 10)] := rfl

theorem commitMsg_matches (t : Timestamp) :
    matchesCommitPattern (commitMsg t) = true := by
  have hdata : (commitMsg t).data = "Auto update notes ".data ++ (fmtDate t).data := rfl
  unfold matchesCommitPattern
  rw [hdata, isPre_append, fmtDate_data]
  have h18 : ("Auto update notes ".data).length = 18 := rfl
  rw [Bool.true_and, ← h18, List.drop_left]
  simp [matchesStamp]

/-- C4: a successful end-to-end run with changed content invokes exactly
one `git commit`, whose message is `Auto update notes ` followed by the
current date and time and matches the pattern
`Auto update notes YYYY-MM-DD HH:MM:SS`, followed by exactly one
`git push`; the full invocation sequence is commit-then-push and the run
exits 0. -/
theorem c4_single_commit_then_push (env : SyncEnv) (t : Timestamp)
    (h1 : env.syncOk = true) (h2 : env.buildOk = true)
    (h3 : env.diffQuiet = false) (h4 : env.gitAddExit = 0)
    (h5 : env.commitOk = true) (h6 : env.pushOk = true) :
    (autoSyncDeploy env t).invoked =
      [Invocation.syncBear, Invocation.buildSite, Invocation.diffDocs,
       Invocation.gitAdd, Invocation.gitCommit ("Auto update notes " ++ fmtDate t),
       Invocation.gitPush] ∧
    (autoSyncDeploy env t).invoked.count
      (Invocation.gitCommit ("Auto update notes " ++ fmtDate t)) = 1 ∧
    ((autoSyncDeploy env t).invoked.filter isCommitInv).length = 1 ∧
    (autoSyncDeploy env t).invoked.count Invocation.gitPush = 1 ∧
    matchesCommitPattern ("Auto update notes " ++ fmtDate t) = true ∧
    (autoSyncDeploy env t).exitCode = 0 := by
  have hrun : autoSyncDeploy env t =
      { exitCode := 0
        invoked := [.syncBear, .buildSite, .diffDocs, .gitAdd,
          .gitCommit (commitMsg t), .gitPush]
        log := [.out (logTag ++ " sync-bear ok"), .out (logTag ++ " build ok"),
          .out (logTag ++ " committing: " ++ commitMsg t), .out (logTag ++ " commit ok"),
          .out (logTag ++ " push ok"), .out (logTag ++ " done")] } := by
    simp [autoSyncDeploy, h1, h2, h3, h4, h5, h6]
  refine ⟨?_, ?_, ?_, ?_, commitMsg_matches t, ?_⟩ <;>
    simp [hrun, commitMsg, isCommitInv, List.count_cons]

/-- Witness for C4 at a concrete all-success environment with changes. -/
theorem c4_witness :
    (autoSyncDeploy ⟨true, true, false, 0, true, true⟩ ⟨2026, 10, 11, 7, 8, 9, 0⟩).invoked =
      [Invocation.syncBear, Invocation.buildSite, Invocation.diffDocs,
       Invocation.gitAdd,
       Invocation.gitCommit ("Auto update notes " ++ fmtDate ⟨2026, 10, 11, 7, 8, 9, 0⟩),
       Invocation.gitPush] ∧
    matchesCommitPattern ("Auto update notes " ++ fmtDate ⟨2026, 10, 11, 7, 8, 9, 0⟩) = true ∧
    (autoSyncDeploy ⟨true, true, false, 0, true, true⟩ ⟨2026, 10, 11, 7, 8, 9, 0⟩).exitCode = 0 :=
  ⟨(c4_single_commit_then_push ⟨true, true, false, 0, true, true⟩
      ⟨2026, 10, 11, 7, 8, 9, 0⟩ rfl rfl rfl rfl rfl rfl).1,
   (c4_single_commit_then_push ⟨true, true, false, 0, true, true⟩
      ⟨2026, 10, 11, 7, 8, 9, 0⟩ rfl rfl rfl rfl rfl rfl).2.2.2.2.1,
   (c4_single_commit_then_push ⟨true, true, false, 0, true, true⟩
      ⟨2026, 10, 11, 7, 8, 9, 0⟩ rfl rfl rfl rfl rfl rfl).2.2.2.2.2⟩

/-- C6 counterexample: when the unguarded `git add docs` fails with exit
code 128 on a changed-content run, `set -e` terminates the orchestrator
with exit code 128, which is neither 0 nor 1. -/
theorem c6_counterexample :
    (autoSyncDeploy ⟨true, true, false, 128, true, true⟩ ⟨2026, 1, 1, 0, 0, 0, 0⟩).exitCode = 128 ∧
    ¬((autoSyncDeploy ⟨true, true, false, 128, true, true⟩ ⟨2026, 1, 1, 0, 0, 0, 0⟩).exitCode = 0 ∨
      (autoSyncDeploy ⟨true, true, false, 128, true, true⟩ ⟨2026, 1, 1, 0, 0, 0, 0⟩).exitCode = 1) := by
  decide

/-- C6 (amended): every orchestrator run exits with code 0, code 1, or —
when the unguarded `git add docs` fails under `set -e` — with git add's own
exit code; and the exit code is 0 exactly when the run is a success or a
safe no-op (sync and build succeed, and either the diff is quiet or
add/commit/push all succeed). -/
theorem c6_exit_codes (env : SyncEnv) (t : Timestamp) :
    ((autoSyncDeploy env t).exitCode = 0 ∨ (autoSyncDeploy env t).exitCode = 1 ∨
      (autoSyncDeploy env t).exitCode = env.gitAddExit) ∧
    ((autoSyncDeploy env t).exitCode = 0 ↔
      (env.syncOk = true ∧ env.buildOk = true ∧
        (env.diffQuiet = true ∨
          (env.gitAddExit = 0 ∧ env.commitOk = true ∧ env.pushOk = true)))) := by
  rcases env with ⟨s, b, d, g, c, p⟩
  by_cases hg : g = 0 <;>
    cases s <;> cases b <;> cases d <;> cases c <;> cases p <;>
      simp_all [autoSyncDeploy]

@[simp] theorem mkdirp_files (fs : FS) (p : String) :
    (fs.mkdirp p).files = fs.files := rfl

theorem pathRel_append (d rel : String) : pathRel d (d ++ "/" ++ rel) = some rel := by
  have h1 : (d ++ "/" ++ rel).data = (d ++ "/").data ++ rel.data := rfl
  have h2 : ((d ++ "/").data ++ rel.data).drop (d ++ "/").data.length = rel.data :=
    List.drop_left _ _
  unfold pathRel
  rw [h1, isPre_append, if_pos rfl, h2, smkData]

/-- C9: on an invocation where the exporter script is missing, the three
`mkdir -p` calls have already run before the existence check, so the script
exits 1 with the content, backup and public directories all existing — the
error path is not state-preserving. -/
theorem c9_mkdir_before_check (env : ExportEnv) (fs0 : FS)
    (h : env.exportScriptExists = false) :
    (runBearExport env fs0).exitCode = 1 ∧
    (runBearExport env fs0).fs.dirs outDir = true ∧
    (runBearExport env fs0).fs.dirs backupDir = true ∧
    (runBearExport env fs0).fs.dirs publicDir = true := by
  refine ⟨?_, ?_, ?_, ?_⟩ <;>
    simp [runBearExport, h, FS.mkdirp, outDir, backupDir, publicDir]

/-- Witness for C9 at a concrete empty filesystem. -/
theorem c9_witness :
    (runBearExport ⟨false, 0, fun fs => fs⟩ ⟨fun _ => false, fun _ => none⟩).exitCode = 1 ∧
    (runBearExport ⟨false, 0, fun fs => fs⟩ ⟨fun _ => false, fun _ => none⟩).fs.dirs outDir = true ∧
    (runBearExport ⟨false, 0, fun fs => fs⟩ ⟨fun _ => false, fun _ => none⟩).fs.dirs backupDir = true ∧
    (runBearExport ⟨false, 0, fun fs => fs⟩ ⟨fun _ => false, fun _ => none⟩).fs.dirs publicDir = true :=
  c9_mkdir_before_check ⟨false, 0, fun fs => fs⟩ ⟨fun _ => false, fun _ => none⟩ rfl

/-- C7: when the image subfolder exists under the content directory after
export, the run exits 0, every file under it is mirrored into the
public-asset directory with identical bytes, and the synchronization is
additive — no file present anywhere before the relay disappears. -/
theorem c7_relay_mirrors (env : ExportEnv) (fs0 : FS)
    (h1 : env.exportScriptExists = true) (h2 : env.pythonExit = 0)
    (h3 : (env.exporterEffect
        (((fs0.mkdirp outDir).mkdirp backupDir).mkdirp publicDir)).dirs bearSrc = true) :
    (runBearExport env fs0).exitCode = 0 ∧
    (∀ rel b,
      (env.exporterEffect
          (((fs0.mkdirp outDir).mkdirp backupDir).mkdirp publicDir)).files
        (bearSrc ++ "/" ++ rel) = some b →
      (runBearExport env fs0).fs.files (bearDst ++ "/" ++ rel) = some b) ∧
    (∀ p b,
      (env.exporterEffect
          (((fs0.mkdirp outDir).mkdirp backupDir).mkdirp publicDir)).files p = some b →
      ((runBearExport env fs0).fs.files p).isSome = true) := by
  have hrun : runBearExport env fs0 =
      { exitCode := 0
        fs := rsyncDir ((env.exporterEffect
          (((fs0.mkdirp outDir).mkdirp backupDir).mkdirp publicDir)).mkdirp bearDst)
          bearSrc bearDst } := by
    simp [runBearExport, h1, h2, h3]
  refine ⟨by simp [hrun], ?_, ?_⟩
  · intro rel b hb
    rw [hrun]
    show (rsyncDir _ bearSrc bearDst).files (bearDst ++ "/" ++ rel) = some b
    unfold rsyncDir
    simp only [pathRel_append, mkdirp_files, hb]
  · intro p b hb
    rw [hrun]
    show ((rsyncDir _ bearSrc bearDst).files p).isSome = true
    unfold rsyncDir
    simp only [mkdirp_files]
    cases hm : pathRel bearDst p
    · simp [hm, hb]
    · cases hsrc : (env.exporterEffect
          (((fs0.mkdirp outDir).mkdirp backupDir).mkdirp publicDir)).files
          (bearSrc ++ "/" ++ (Option.get! (pathRel bearDst p)))
      all_goals simp_all [hm, hb]

/-- Witness for C7: a filesystem whose BearImages folder holds `a.png`;
after the run the bytes appear under `public/BearImages/a.png`. -/
theorem c7_witness :
    ((fun fs => fs : FS → FS)
      ((((⟨fun q => q == bearSrc, fun p =>
            if p == bearSrc ++ "/" ++ "a.png" then some [137, 80, 78, 71] else none⟩ : FS).mkdirp
          outDir).mkdirp backupDir).mkdirp publicDir)).dirs bearSrc = true ∧
    (runBearExport ⟨true, 0, fun fs => fs⟩
      ⟨fun q => q == bearSrc, fun p =>
        if p == bearSrc ++ "/" ++ "a.png" then some [137, 80, 78, 71] else none⟩).exitCode = 0 ∧
    (runBearExport ⟨true, 0, fun fs => fs⟩
      ⟨fun q => q == bearSrc, fun p =>
        if p == bearSrc ++ "/" ++ "a.png" then some [137, 80, 78, 71] else none⟩).fs.files
      (bearDst ++ "/" ++ "a.png") = some [137, 80, 78, 71] :=
  have h := c7_relay_mirrors ⟨true, 0, fun fs => fs⟩
    ⟨fun q => q == bearSrc, fun p =>
      if p == bearSrc ++ "/" ++ "a.png" then some [137, 80, 78, 71] else none⟩
    rfl rfl (by decide)
  ⟨by decide, h.1, h.2.1 "a.png" [137, 80, 78, 71] (by decide)⟩

/-- C8 counterexample: with no image subfolder and an initially absent
public directory, the run still creates the public directory via the
unconditional `mkdir -p`, so the public-asset directory is not left
untouched. -/
theorem c8_counterexample :
    (runBearExport ⟨true, 0, fun fs => fs⟩ ⟨fun _ => false, fun _ => none⟩).fs.dirs publicDir = true ∧
    (FS.mk (fun _ => false) (fun _ => none)).dirs publicDir = false := by
  constructor
  · decide
  · rfl

/-- C8 (amended): when no image subfolder exists after export (and the
exporter neither writes under the public directory nor changes its
existence), the relay is skipped, the run exits 0 and every file under the
public-asset directory is exactly as before the run; however the public
directory itself is created when absent by the unconditional `mkdir -p`. -/
theorem c8_skip_relay (env : ExportEnv) (fs0 : FS)
    (h1 : env.exportScriptExists = true) (h2 : env.pythonExit = 0)
    (h3 : (env.exporterEffect
        (((fs0.mkdirp outDir).mkdirp backupDir).mkdirp publicDir)).dirs bearSrc = false)
    (h4 : ∀ p, isPre (publicDir ++ "/").data p.data = true →
      (env.exporterEffect
        (((fs0.mkdirp outDir).mkdirp backupDir).mkdirp publicDir)).files p =
      (((fs0.mkdirp outDir).mkdirp backupDir).mkdirp publicDir).files p)
    (h5 : (env.exporterEffect
        (((fs0.mkdirp outDir).mkdirp backupDir).mkdirp publicDir)).dirs publicDir =
      (((fs0.mkdirp outDir).mkdirp backupDir).mkdirp publicDir).dirs publicDir) :
    (runBearExport env fs0).exitCode = 0 ∧
    (∀ p, isPre (publicDir ++ "/").data p.data = true →
      (runBearExport env fs0).fs.files p = fs0.files p) ∧
    (runBearExport env fs0).fs.dirs publicDir = true := by
  have hrun : runBearExport env fs0 =
      { exitCode := 0
        fs := env.exporterEffect
          (((fs0.mkdirp outDir).mkdirp backupDir).mkdirp publicDir) } := by
    simp [runBearExport, h1, h2, h3]
  refine ⟨by simp [hrun], ?_, ?_⟩
  · intro p hp
    rw [hrun]
    exact h4 p hp
  · rw [hrun]
    show (env.exporterEffect _).dirs publicDir = true
    rw [h5]
    simp [FS.mkdirp]

/-- Witness for C8: a pre-existing file under `public/` survives the run
unchanged, and the run exits 0 with the public directory present. -/
theorem c8_witness :
    (runBearExport ⟨true, 0, fun fs => fs⟩
      ⟨fun _ => false, fun p => if p == "public/keep.txt" then some [7] else none⟩).exitCode = 0 ∧
    (runBearExport ⟨true, 0, fun fs => fs⟩
      ⟨fun _ => false, fun p => if p == "public/keep.txt" then some [7] else none⟩).fs.files
      "public/keep.txt" = some [7] ∧
    (runBearExport ⟨true, 0, fun fs => fs⟩
      ⟨fun _ => false, fun p => if p == "public/keep.txt" then some [7] else none⟩).fs.dirs
      publicDir = true :=
  have h := c8_skip_relay ⟨true, 0, fun fs => fs⟩
    ⟨fun _ => false, fun p => if p == "public/keep.txt" then some [7] else none⟩
    rfl rfl (by decide) (fun p _ => rfl) rfl
  ⟨h.1, (h.2.1 "public/keep.txt" (by decide)).trans (by decide), h.2.2⟩

/-- C5 counterexample: when the record write fails, the handler performs no
action at all — in particular no 200 response is sent — and the exception
escapes uncaught, contradicting the claim that the listener does not crash
and still responds. -/
theorem c5_counterexample :
    (handleRequest ⟨2026, 1, 1, 0, 0, 0, 0⟩ ⟨"POST", "/x", [], ["hi"]⟩ false).uncaught = true ∧
    ListenerEvent.respond 200 "text/plain" "ok" ∉
      (handleRequest ⟨2026, 1, 1, 0, 0, 0, 0⟩ ⟨"POST", "/x", [], ["hi"]⟩ false).events := by
  decide

/-- C5 (amended): for every request whose record write fails, the thrown
error propagates out of the `end` handler uncaught (crashing the listener),
no 200 response is sent, and nothing is logged — the failure is fatal
rather than logged-and-continue. -/
theorem c5_write_failure_uncaught (t : Timestamp) (r : CapturedRequest) :
    (handleRequest t r false).uncaught = true ∧
    (handleRequest t r false).events = [] ∧
    (∀ st ct b, ListenerEvent.respond st ct b ∉ (handleRequest t r false).events) := by
  refine ⟨rfl, rfl, ?_⟩
  intro st ct b h
  simp [handleRequest] at h

/-- C10: for every request whose record write succeeds, the handler's
action sequence is exactly write-record, log, respond — the record written
is the JSON serialization of exactly the request's method, url, headers and
fully buffered body — and every 200 response is preceded by the completed
record write. -/
theorem c10_write_before_respond (t : Timestamp) (r : CapturedRequest) :
    (handleRequest t r true).events =
      [ListenerEvent.writeRecord (debugDir ++ "/" ++ recordFileName t r.method)
          ⟨r.method, r.url, r.headers, String.join r.chunks⟩,
       ListenerEvent.logSaved (debugDir ++ "/" ++ recordFileName t r.method),
       ListenerEvent.respond 200 "text/plain" "ok"] ∧
    (handleRequest t r true).uncaught = false ∧
    (∀ j st ct b,
      (handleRequest t r true).events.get? j = some (.respond st ct b) →
      ∃ i, i < j ∧ (handleRequest t r true).events.get? i =
        some (.writeRecord (debugDir ++ "/" ++ recordFileName t r.method)
          (serializeRecord r))) := by
  refine ⟨rfl, rfl, ?_⟩
  intro j st ct b hj
  refine ⟨0, ?_, rfl⟩
  rcases j with _ | _ | _ | j <;> simp [handleRequest, List.get?] at hj ⊢

@[simp] theorem replChar_digitChar (d : Nat) : replChar (digitChar d) = digitChar d := by
  unfold digitChar
  split_ifs <;> rfl

@[simp] theorem replChar_dash : replChar '-' = '-' := rfl

@[simp] theorem replChar_tee : replChar 'T' = 'T' := rfl

@[simp] theorem replChar_zed : replChar 'Z' = 'Z' := rfl

@[simp] theorem replChar_colon : replChar ':' = '-' := rfl

@[simp] theorem replChar_dot : replChar '.' = '-' := rfl

theorem isoString_data (t : Timestamp) : (toISOString t).data =
    [digitChar (t.year / 1000), digitChar (t.year / 100 % 10),
     digitChar (t.year / 10 % 10), digitChar (t.year % 10), '-',
     digitChar (t.month / 10), digitChar (t.month % 10), '-',
     digitChar (t.day / 10), digitChar (t.day % 10), 'T',
     digitChar (t.hour / 10), digitChar (t.hour % 10), ':',
     digitChar (t.minute / 10), digitChar (t.minute % 10), ':',
     digitChar (t.second / 10), digitChar (t.second % 10), '.',
     digitChar (t.ms / 100), digitChar (t.ms / 10 % 10), digitChar (t.ms % 10),
     'Z'] := rfl

theorem tsName_data (t : Timestamp) : (replaceColonsDots (toISOString t)).data =
    [digitChar (t.year / 1000), digitChar (t.year / 100 % 10),
     digitChar (t.year / 10 % 10), digitChar (t.year % 10), '-',
     digitChar (t.month / 10), digitChar (t.month % 10), '-',
     digitChar (t.day / 10), digitChar (t.day % 10), 'T',
     digitChar (t.hour / 10), digitChar (t.hour % 10), '-',
     digitChar (t.minute / 10), digitChar (t.minute % 10), '-',
     digitChar (t.second / 10), digitChar (t.second % 10), '-',
     digitChar (t.ms / 100), digitChar (t.ms / 10 % 10), digitChar (t.ms % 10),
     'Z'] := by
  show (toISOString t).data.map replChar = _
  rw [isoString_data]
  simp

theorem digitChar_inj : ∀ a < 10, ∀ b < 10, digitChar a = digitChar b → a = b := by
  decide

theorem recordFileName_data (t : Timestamp) (m : String) :
    (recordFileName t m).data =
      (replaceColonsDots (toISOString t)).data ++
        ('-' :: (m.data ++ ['.', 'l', 'o', 'g'])) := by
  have e1 : ("-" : String).data = ['-'] := rfl
  have e2 : (".log" : String).data = ['.', 'l', 'o', 'g'] := rfl
  show (((replaceColonsDots (toISOString t) ++ "-") ++ m) ++ ".log").data = _
  simp [List.append_assoc, e1, e2]

theorem recordFileName_inj {t s : Timestamp} {m n : String}
    (ht : t.Valid) (hs : s.Valid)
    (h : recordFileName t m = recordFileName s n) : t = s ∧ m = n := by
  have hd := congrArg String.data h
  rw [recordFileName_data t m, recordFileName_data s n, tsName_data t,
    tsName_data s] at hd
  obtain ⟨hts, htail⟩ := List.append_inj hd (by rfl)
  obtain ⟨hty, htmo, htd, hth, hti, htse, htms⟩ := ht
  obtain ⟨hsy, hsmo, hsd, hsh, hsi, hsse, hsms⟩ := hs
  simp only [List.cons.injEq, eq_self_iff_true, and_true, true_and] at hts
  obtain ⟨hy1, hy2, hy3, hy4, ho1, ho2, hd1, hd2, hh1, hh2,
    hi1, hi2, he1, he2, hm1, hm2, hm3⟩ := hts
  have ey : t.year = s.year := by
    have e1 := digitChar_inj _ (by omega) _ (by omega) hy1
    have e2 := digitChar_inj _ (by omega) _ (by omega) hy2
    have e3 := digitChar_inj _ (by omega) _ (by omega) hy3
    have e4 := digitChar_inj _ (by omega) _ (by omega) hy4
    omega
  have emo : t.month = s.month := by
    have e1 := digitChar_inj _ (by omega) _ (by omega) ho1
    have e2 := digitChar_inj _ (by omega) _ (by omega) ho2
    omega
  have ed : t.day = s.day := by
    have e1 := digitChar_inj _ (by omega) _ (by omega) hd1
    have e2 := digitChar_inj _ (by omega) _ (by omega) hd2
    omega
  have eh : t.hour = s.hour := by
    have e1 := digitChar_inj _ (by omega) _ (by omega) hh1
    have e2 := digitChar_inj _ (by omega) _ (by omega) hh2
    omega
  have ei : t.minute = s.minute := by
    have e1 := digitChar_inj _ (by omega) _ (by omega) hi1
    have e2 := digitChar_inj _ (by omega) _ (by omega) hi2
    omega
  have ese : t.second = s.second := by
    have e1 := digitChar_inj _ (by omega) _ (by omega) he1
    have e2 := digitChar_inj _ (by omega) _ (by omega) he2
    omega
  have ems : t.ms = s.ms := by
    have e1 := digitChar_inj _ (by omega) _ (by omega) hm1
    have e2 := digitChar_inj _ (by omega) _ (by omega) hm2
    have e3 := digitChar_inj _ (by omega) _ (by omega) hm3
    omega
  constructor
  · calc t = ⟨t.year, t.month, t.day, t.hour, t.minute, t.second, t.ms⟩ := rfl
      _ = ⟨s.year, s.month, s.day, s.hour, s.minute, s.second, s.ms⟩ := by
          rw [ey, emo, ed, eh, ei, ese, ems]
      _ = s := rfl
  · have h2 : m.data ++ ['.', 'l', 'o', 'g'] = n.data ++ ['.', 'l', 'o', 'g'] :=
      (List.cons_eq_cons.mp htail).2
    have h3 : m.data = n.data := (List.append_inj' h2 rfl).1
    exact congrArg String.mk h3

theorem storeWrite_fresh (s : List (String × RecordPayload)) (name : String)
    (v : RecordPayload) (h : ∀ kv ∈ s, kv.1 ≠ name) :
    storeWrite s name v = s ++ [(name, v)] := by
  have hany : (s.any fun kv => kv.1 == name) = false := by
    rw [List.any_eq_false]
    intro kv hkv
    simp [h kv hkv]
  unfold storeWrite
  simp [hany]

theorem processRequests_fresh (reqs : List (Timestamp × CapturedRequest)) :
    ∀ store : List (String × RecordPayload),
    (∀ p ∈ reqs, ∀ kv ∈ store, kv.1 ≠ recordFileName p.1 p.2.method) →
    (reqs.map fun p => recordFileName p.1 p.2.method).Nodup →
    processRequests reqs store =
      (store ++ reqs.map (fun p => (recordFileName p.1 p.2.method, serializeRecord p.2)),
       reqs.map (fun _ => (200, "ok"))) := by
  induction reqs with
  | nil => intro store _ _; simp [processRequests]
  | cons q rest ih =>
    intro store hfresh hnodup
    obtain ⟨t, r⟩ := q
    have hw : storeWrite store (recordFileName t r.method) (serializeRecord r) =
        store ++ [(recordFileName t r.method, serializeRecord r)] :=
      storeWrite_fresh _ _ _ (fun kv hkv => hfresh (t, r) (by simp) kv hkv)
    rw [List.map_cons] at hnodup
    have hnd : recordFileName t r.method ∉
        (rest.map fun p => recordFileName p.1 p.2.method) ∧
        (rest.map fun p => recordFileName p.1 p.2.method).Nodup :=
      ⟨(List.nodup_cons.mp hnodup).1, (List.nodup_cons.mp hnodup).2⟩
    have hfresh' : ∀ p ∈ rest,
        ∀ kv ∈ store ++ [(recordFileName t r.method, serializeRecord r)],
          kv.1 ≠ recordFileName p.1 p.2.method := by
      intro p hp kv hkv
      rcases List.mem_append.mp hkv with hkv | hkv
      · exact hfresh p (List.mem_cons_of_mem _ hp) kv hkv
      · have hkv' : kv = (recordFileName t r.method, serializeRecord r) := by
          simpa using hkv
        rw [hkv']
        intro hEq
        have hEq' : recordFileName t r.method = recordFileName p.1 p.2.method := hEq
        refine hnd.1 ?_
        rw [hEq']
        exact List.mem_map_of_mem _ hp
    simp only [processRequests]
    rw [hw, ih (store ++ [(recordFileName t r.method, serializeRecord r)]) hfresh' hnd.2]
    simp [List.append_assoc]

/-- C3 counterexample: two requests handled within the same millisecond
with the same method map to the same record filename, so the second write
overwrites the first — two requests yield one record file (holding only the
second request's record), although both receive status 200. -/
theorem c3_counterexample :
    (processRequests
      [((⟨2026, 10, 11, 12, 0, 0, 123⟩ : Timestamp), (⟨"POST", "/a", [], []⟩ : CapturedRequest)),
       ((⟨2026, 10, 11, 12, 0, 0, 123⟩ : Timestamp), (⟨"POST", "/b", [], []⟩ : CapturedRequest))]
      []).1.length = 1 ∧
    (processRequests
      [((⟨2026, 10, 11, 12, 0, 0, 123⟩ : Timestamp), (⟨"POST", "/a", [], []⟩ : CapturedRequest)),
       ((⟨2026, 10, 11, 12, 0, 0, 123⟩ : Timestamp), (⟨"POST", "/b", [], []⟩ : CapturedRequest))]
      []).1 =
      [(recordFileName ⟨2026, 10, 11, 12, 0, 0, 123⟩ "POST",
        serializeRecord ⟨"POST", "/b", [], []⟩)] ∧
    (processRequests
      [((⟨2026, 10, 11, 12, 0, 0, 123⟩ : Timestamp), (⟨"POST", "/a", [], []⟩ : CapturedRequest)),
       ((⟨2026, 10, 11, 12, 0, 0, 123⟩ : Timestamp), (⟨"POST", "/b", [], []⟩ : CapturedRequest))]
      []).2 = [(200, "ok"), (200, "ok")] := by
  decide

/-- C3 (amended): for requests whose (millisecond timestamp, method) pairs
are pairwise distinct, the listener produces exactly N record files with
pairwise distinct names, each holding its own request's record
unoverwritten, and every request receives status 200; when two requests
share timestamp and method their filenames coincide and the later record
overwrites the earlier one. -/
theorem c3_distinct_records (reqs : List (Timestamp × CapturedRequest))
    (hval : ∀ p ∈ reqs, p.1.Valid)
    (hnodup : (reqs.map fun p => (p.1, p.2.method)).Nodup) :
    (processRequests reqs []).1 =
      reqs.map (fun p => (recordFileName p.1 p.2.method, serializeRecord p.2)) ∧
    ((processRequests reqs []).1.map Prod.fst).Nodup ∧
    (processRequests reqs []).1.length = reqs.length ∧
    (processRequests reqs []).2 = reqs.map (fun _ => (200, "ok")) := by
  have hnames : (reqs.map fun p => recordFileName p.1 p.2.method).Nodup := by
    have hcomp : (reqs.map fun p => recordFileName p.1 p.2.method) =
        ((reqs.map fun p => (p.1, p.2.method)).map fun q => recordFileName q.1 q.2) := by
      simp [List.map_map, Function.comp]
    rw [hcomp]
    apply List.Nodup.map_on ?_ hnodup
    intro x hx y hy hxy
    obtain ⟨px, hpx, hxe⟩ := List.mem_map.mp hx
    obtain ⟨py, hpy, hye⟩ := List.mem_map.mp hy
    have hvx : x.1.Valid := by rw [← hxe]; exact hval px hpx
    have hvy : y.1.Valid := by rw [← hye]; exact hval py hpy
    obtain ⟨h1, h2⟩ := recordFileName_inj hvx hvy hxy
    exact Prod.ext h1 h2
  have hmain := processRequests_fresh reqs []
    (by intro p hp kv hkv; simp at hkv) hnames
  refine ⟨by rw [hmain]; simp, ?_, by rw [hmain]; simp, by rw [hmain]⟩
  rw [hmain]
  simpa [List.map_map, Function.comp] using hnames

/-- Witness for C3 at two same-instant requests with distinct methods. -/
theorem c3_witness :
    (processRequests
      [((⟨2026, 10, 11, 12, 0, 0, 123⟩ : Timestamp), (⟨"GET", "/a", [], []⟩ : CapturedRequest)),
       ((⟨2026, 10, 11, 12, 0, 0, 123⟩ : Timestamp), (⟨"POST", "/b", [], ["x"]⟩ : CapturedRequest))]
      []).1.length = 2 ∧
    ((processRequests
      [((⟨2026, 10, 11, 12, 0, 0, 123⟩ : Timestamp), (⟨"GET", "/a", [], []⟩ : CapturedRequest)),
       ((⟨2026, 10, 11, 12, 0, 0, 123⟩ : Timestamp), (⟨"POST", "/b", [], ["x"]⟩ : CapturedRequest))]
      []).1.map Prod.fst).Nodup ∧
    (processRequests
      [((⟨2026, 10, 11, 12, 0, 0, 123⟩ : Timestamp), (⟨"GET", "/a", [], []⟩ : CapturedRequest)),
       ((⟨2026, 10, 11, 12, 0, 0, 123⟩ : Timestamp), (⟨"POST", "/b", [], ["x"]⟩ : CapturedRequest))]
      []).2 = [(200, "ok"), (200, "ok")] := by
  have h := c3_distinct_records
    [((⟨2026, 10, 11, 12, 0, 0, 123⟩ : Timestamp), (⟨"GET", "/a", [], []⟩ : CapturedRequest)),
     ((⟨2026, 10, 11, 12, 0, 0, 123⟩ : Timestamp), (⟨"POST", "/b", [], ["x"]⟩ : CapturedRequest))]
    (by decide) (by decide)
  exact ⟨h.2.2.1, h.2.1, h.2.2.2⟩

/-- Witness for C5 at a concrete failed-write request. -/
theorem c5_witness :
    (handleRequest ⟨2026, 2, 3, 4, 5, 6, 7⟩ ⟨"GET", "/y", [("a", "b")], []⟩ false).uncaught = true ∧
    (handleRequest ⟨2026, 2, 3, 4, 5, 6, 7⟩ ⟨"GET", "/y", [("a", "b")], []⟩ false).events = [] :=
  ⟨(c5_write_failure_uncaught ⟨2026, 2, 3, 4, 5, 6, 7⟩ ⟨"GET", "/y", [("a", "b")], []⟩).1,
   (c5_write_failure_uncaught ⟨2026, 2, 3, 4, 5, 6, 7⟩ ⟨"GET", "/y", [("a", "b")], []⟩).2.1⟩

/-- Witness for C6 at a concrete environment. -/
theorem c6_witness :
    (autoSyncDeploy ⟨true, true, true, 5, true, true⟩ ⟨2026, 3, 4, 5, 6, 7, 8⟩).exitCode = 0 ∨
    (autoSyncDeploy ⟨true, true, true, 5, true, true⟩ ⟨2026, 3, 4, 5, 6, 7, 8⟩).exitCode = 1 ∨
    (autoSyncDeploy ⟨true, true, true, 5, true, true⟩ ⟨2026, 3, 4, 5, 6, 7, 8⟩).exitCode = 5 :=
  (c6_exit_codes ⟨true, true, true, 5, true, true⟩ ⟨2026, 3, 4, 5, 6, 7, 8⟩).1

/-- Witness for C10 at a concrete successful-write request. -/
theorem c10_witness :
    (handleRequest ⟨2026, 2, 3, 4, 5, 6, 7⟩ ⟨"POST", "/z", [], ["ab", "cd"]⟩ true).events =
      [ListenerEvent.writeRecord
          (debugDir ++ "/" ++ recordFileName ⟨2026, 2, 3, 4, 5, 6, 7⟩ "POST")
          ⟨"POST", "/z", [], String.join ["ab", "cd"]⟩,
       ListenerEvent.logSaved
          (debugDir ++ "/" ++ recordFileName ⟨2026, 2, 3, 4, 5, 6, 7⟩ "POST"),
       ListenerEvent.respond 200 "text/plain" "ok"] ∧
    (handleRequest ⟨2026, 2, 3, 4, 5, 6, 7⟩ ⟨"POST", "/z", [], ["ab", "cd"]⟩ true).uncaught = false :=
  ⟨(c10_write_before_respond ⟨2026, 2, 3, 4, 5, 6, 7⟩ ⟨"POST", "/z", [], ["ab", "cd"]⟩).1,
   (c10_write_before_respond ⟨2026, 2, 3, 4, 5, 6, 7⟩ ⟨"POST", "/z", [], ["ab", "cd"]⟩).2.1⟩
